import Mathlib

/-!
# Shallow embedding of the blimp-boards collaboration core

This file embeds, in Lean 4, the board/card collaboration model of the
repository (`src/blimp_boards/boards/models.py`,
`src/blimp_boards/cards/models.py`) and proves properties about it.

Entity rows are Lean structures; the database is a `Store` of row lists;
Django queryset operations become list filters; model `save`/`clean`
validation becomes `Except`-returning functions; signal receivers become
explicit functions invoked by the operations that trigger them.
-/

namespace BlimpBoards

/-- A registered user.  The `users.User` model is external to the examined
source; only the fields the boards app reads (`email`, `first_name`,
`last_name`) are modelled. -/
structure User where
  id : Nat
  email : String
  first_name : String
  last_name : String
  deriving Repr, DecidableEq

/-- An account.  External to the examined source; the boards app only
dereferences `account.owner.user`, modelled as the owner's user id. -/
structure Account where
  id : Nat
  ownerUser : Nat
  deriving Repr, DecidableEq

/-- `boards.Board` (src/blimp_boards/boards/models.py, class Board). -/
structure Board where
  id : Nat
  name : String
  slug : String
  account : Nat
  created_by : Nat
  is_shared : Bool
  thumbnail_sm_path : String
  thumbnail_md_path : String
  thumbnail_lg_path : String
  deriving Repr, DecidableEq

/-- The `permission` field of `BoardCollaborator`:
`READ_PERMISSION = 'read'`, `WRITE_PERMISSION = 'write'`. -/
inductive Permission where
  | read
  | write
  deriving Repr, DecidableEq

/-- `boards.BoardCollaborator`: joins a board to a user or an invited user
with a permission. -/
structure BoardCollaborator where
  id : Nat
  board : Nat
  user : Option Nat
  invited_user : Option Nat
  permission : Permission
  deriving Repr, DecidableEq

/-- `invitations.InvitedUser`.

Modelled from the spec: the `invitations` app is not under the examined
source; the spec describes an InvitedUser built from the request's identity
fields plus the board's account and the account owner as creator, holding a
`board_collaborators` set and offering an opaque `send_invite()`. -/
structure InvitedUser where
  id : Nat
  first_name : String
  last_name : String
  email : String
  user : Option Nat
  account : Nat
  created_by : Nat
  board_collaborators : List Nat
  deriving Repr, DecidableEq

/-- `boards.BoardCollaboratorRequest`. -/
structure CollabRequest where
  id : Nat
  first_name : String
  last_name : String
  email : String
  user : Option Nat
  board : Nat
  message : String
  deriving Repr, DecidableEq

/-- The visible persistent state: one list of rows per model, a log of sent
invites (`InvitedUser.send_invite()` calls), and a fresh-id counter for rows
created by `objects.create`. -/
structure Store where
  users : List User
  accounts : List Account
  boards : List Board
  collaborators : List BoardCollaborator
  invitedUsers : List InvitedUser
  requests : List CollabRequest
  sentInvites : List Nat
  nextId : Nat
  deriving Repr, DecidableEq

/-- Single-row lookup of a board by primary key (FK dereference). -/
def findBoard (st : Store) (id : Nat) : Option Board :=
  st.boards.find? (fun b => b.id == id)

/-- Single-row lookup of an account by primary key (FK dereference). -/
def findAccount (st : Store) (id : Nat) : Option Account :=
  st.accounts.find? (fun a => a.id == id)

/-- Single-row lookup of a user by primary key (FK dereference). -/
def findUser (st : Store) (id : Nat) : Option User :=
  st.users.find? (fun u => u.id == id)

/-- `Board.is_user_collaborator(user, permission=None)`
(src/blimp_boards/boards/models.py:53-69): filter the collaborator rows to
`board=self, user=user`; if `permission == 'read'` keep rows whose permission
is write or read; if `permission == 'write'` keep rows whose permission is
write; return whether any row remains. -/
def is_user_collaborator (rows : List BoardCollaborator) (board : Nat)
    (user : Nat) (permission : Option Permission) : Bool :=
  let collaborators : List BoardCollaborator := rows.filter
    (fun c => c.board == board && c.user == some user)
  let collaborators : List BoardCollaborator :=
    match permission with
    | some Permission.read => collaborators.filter
        (fun c => c.permission == Permission.write
          || c.permission == Permission.read)
    | some Permission.write => collaborators.filter
        (fun c => c.permission == Permission.write)
    | none => collaborators
  !collaborators.isEmpty

/-- `BoardCollaborator.clean` (models.py:122-130): exactly one of `user`,
`invited_user` must be set (Python truthiness of a nullable FK is
`isSome`). -/
def boardCollaboratorClean (c : BoardCollaborator) : Except String Unit :=
  if c.user.isSome && c.invited_user.isSome then
    Except.error "Both user and invited_user cannot be set together."
  else if c.user.isNone && c.invited_user.isNone then
    Except.error "Either user or invited_user must be set."
  else Except.ok ()

/-- Django `validate_unique` for `BoardCollaborator.Meta.unique_together =
(('board','user'), ('board','invited_user'))`: each tuple is checked only
when none of its fields is NULL. -/
def boardCollaboratorValidateUnique (rows : List BoardCollaborator)
    (c : BoardCollaborator) : Bool :=
  (match c.user with
   | some u => rows.all (fun r => !(r.board == c.board && r.user == some u))
   | none => true)
  && (match c.invited_user with
      | some i => rows.all
          (fun r => !(r.board == c.board && r.invited_user == some i))
      | none => true)

/-- `BoardCollaborator.objects.create(...)`: assigns a fresh pk and goes
through `BoardCollaborator.save`, which runs `full_clean` (here: `clean`
plus `validate_unique`) before inserting (models.py:112-120). -/
def createBoardCollaborator (st : Store) (board : Nat) (user : Option Nat)
    (invited : Option Nat) (perm : Permission) :
    Except String (Store × BoardCollaborator) :=
  let c : BoardCollaborator :=
    { id := st.nextId, board := board, user := user, invited_user := invited,
      permission := perm }
  match boardCollaboratorClean c with
  | Except.error e => Except.error e
  | Except.ok () =>
    if boardCollaboratorValidateUnique st.collaborators c then
      Except.ok ({ st with collaborators := st.collaborators ++ [c],
                           nextId := st.nextId + 1 }, c)
    else Except.error "Board collaborator with this Board already exists."

/-- The `post_save` receiver `create_owner_collaborator` (models.py:72-84):
when a Board was just created, create a write-permission BoardCollaborator
for `instance.account.owner`; on a plain update (`created=False`) do
nothing. -/
def create_owner_collaborator (st : Store) (b : Board)
    (created : Bool) : Except String Store :=
  if created then
    match findAccount st b.account with
    | none => Except.error "Account matching query does not exist."
    | some account =>
      match createBoardCollaborator st b.id (some account.ownerUser)
          none Permission.write with
      | Except.error e => Except.error e
      | Except.ok (st2, _) => Except.ok st2
  else Except.ok st

/-- `invited_user.board_collaborators.add(board_collaborator)`
(models.py:207). -/
def registerBoardCollaborator (st : Store) (iuId : Nat) (bcId : Nat) :
    Store :=
  { st with invitedUsers := st.invitedUsers.map (fun iu =>
      if iu.id == iuId then
        { iu with board_collaborators := iu.board_collaborators ++ [bcId] }
      else iu) }

/-- The five side-effecting steps of `BoardCollaboratorRequest.accept`
(models.py:180-211), in source order. -/
inductive AcceptStep where
  | createInvitedUser
  | createCollaborator
  | registerCollaborator
  | sendInvite
  | deleteRequest
  deriving Repr, DecidableEq

/-- `BoardCollaboratorRequest.accept` (models.py:180-211) under autocommit
semantics: the method body is a plain sequence of writes with no enclosing
transaction, so each completed step stays visible even when a later step
raises.  `failAt = some s` means step `s` raises; the returned flag is
`true` iff every step completed.  The FK dereferences
`self.board.account(.owner.user)` happen while building
`invited_user_data`, before any write. -/
def acceptRun (st : Store) (req : CollabRequest)
    (failAt : Option AcceptStep) : Store × Bool :=
  match findBoard st req.board with
  | none => (st, false)
  | some board =>
    match findAccount st board.account with
    | none => (st, false)
    | some account =>
      if failAt == some AcceptStep.createInvitedUser then (st, false) else
      let iu : InvitedUser :=
        { id := st.nextId, first_name := req.first_name,
          last_name := req.last_name, email := req.email, user := req.user,
          account := account.id, created_by := account.ownerUser,
          board_collaborators := [] }
      let st1 := { st with invitedUsers := st.invitedUsers ++ [iu],
                           nextId := st.nextId + 1 }
      if failAt == some AcceptStep.createCollaborator then (st1, false) else
      match createBoardCollaborator st1 req.board none (some iu.id)
          Permission.read with
      | Except.error _ => (st1, false)
      | Except.ok (st2, bc) =>
        if failAt == some AcceptStep.registerCollaborator then (st2, false)
        else
        let st3 := registerBoardCollaborator st2 iu.id bc.id
        if failAt == some AcceptStep.sendInvite then (st3, false) else
        let st4 := { st3 with sentInvites := st3.sentInvites ++ [iu.id] }
        if failAt == some AcceptStep.deleteRequest then (st4, false) else
        ({ st4 with
            requests := st4.requests.filter (fun r => r.id != req.id) },
         true)

/-- `accept()` on the happy path (no step raises). -/
def accept (st : Store) (req : CollabRequest) : Store × Bool :=
  acceptRun st req none

/-- `BoardCollaboratorRequest.reject` (models.py:213-217): delete the
request, nothing else. -/
def reject (st : Store) (req : CollabRequest) : Store :=
  { st with requests := st.requests.filter (fun r => r.id != req.id) }

/-- One `django.core.mail.send_mail(subject, message, from_email,
recipient_list, fail_silently)` call. -/
structure Mail where
  subject : String
  body : String
  from_email : String
  recipient_list : List String
  fail_silently : Bool
  deriving Repr, DecidableEq

/-- `BoardCollaboratorRequest.notify_account_owner` (models.py:219-228):
the single `send_mail` call it makes, with the recipient list the source
actually passes (`[self.email]`). -/
def notify_account_owner (req : CollabRequest) : Mail :=
  { subject := "Blimp Board Collaborator Request",
    body := req.email ++ " wants to join your board",
    from_email := "from@example.com",
    recipient_list := [req.email],
    fail_silently := false }

/-- Email of the owner of the board's account: the recipient the spec
prescribes for `notify_account_owner`. -/
def boardOwnerEmail (st : Store) (boardId : Nat) : Option String :=
  match findBoard st boardId with
  | none => none
  | some b =>
    match findAccount st b.account with
    | none => none
    | some a => (findUser st a.ownerUser).map User.email

/-- `BoardCollaboratorRequest.clean` (models.py:173-178): `user` or `email`
must be set (Python truthiness: non-None FK, non-empty string). -/
def collabRequestClean (r : CollabRequest) : Except String Unit :=
  if r.user == none && r.email == "" then
    Except.error "Either user or email must be set."
  else Except.ok ()

/-- Django `validate_unique` for `BoardCollaboratorRequest.Meta
.unique_together = (('email','board'), ('user','board'))`, excluding the
row being saved. -/
def collabRequestValidateUnique (existing : List CollabRequest)
    (r : CollabRequest) : Bool :=
  existing.all (fun o =>
    o.id == r.id || !(o.email == r.email && o.board == r.board))
  && (match r.user with
      | some u => existing.all (fun o =>
          o.id == r.id || !(o.user == some u && o.board == r.board))
      | none => true)

/-- Errors `BoardCollaboratorRequest.save` can raise. -/
inductive SaveError where
  | validationError (msg : String)
  | multipleObjectsReturned
  deriving Repr, DecidableEq

/-- Insert-or-replace of the saved request row. -/
def upsertRequest (rows : List CollabRequest) (r : CollabRequest) :
    List CollabRequest :=
  if rows.any (fun o => o.id == r.id) then
    rows.map (fun o => if o.id == r.id then r else o)
  else rows ++ [r]

/-- `BoardCollaboratorRequest.save` (models.py:150-171): if no user is
bound, `User.objects.get(email=self.email)` (DoesNotExist is caught and
ignored; MultipleObjectsReturned propagates); if a user is bound, overwrite
`first_name`, `last_name`, `email` from it; then `full_clean` (`clean` plus
`validate_unique`) and write. -/
def requestSave (st : Store) (r : CollabRequest) :
    Except SaveError (Store × CollabRequest) :=
  let bound : Except SaveError CollabRequest :=
    match r.user with
    | some _ => Except.ok r
    | none =>
      match st.users.filter (fun u => u.email == r.email) with
      | [] => Except.ok r
      | [u] => Except.ok { r with user := some u.id }
      | _ => Except.error SaveError.multipleObjectsReturned
  match bound with
  | Except.error e => Except.error e
  | Except.ok r1 =>
    let r2 : CollabRequest :=
      match r1.user with
      | none => r1
      | some uid =>
        match findUser st uid with
        | some u => { r1 with first_name := u.first_name,
                              last_name := u.last_name, email := u.email }
        | none => r1
    match collabRequestClean r2 with
    | Except.error msg => Except.error (SaveError.validationError msg)
    | Except.ok () =>
      if collabRequestValidateUnique st.requests r2 then
        Except.ok ({ st with requests := upsertRequest st.requests r2 }, r2)
      else
        Except.error (SaveError.validationError
          "Board collaborator request with this Email and Board already exists.")

/-- A request after `save` binds user `u` and overwrites the identity
fields from `u`'s profile. -/
def boundRequest (r : CollabRequest) (u : User) : CollabRequest :=
  { r with user := some u.id, first_name := u.first_name,
           last_name := u.last_name, email := u.email }

/-- `cards.Card` (src/blimp_boards/cards/models.py, class Card).  `type` is
the raw choice string (`'note' | 'file' | 'stack'`); nullable columns are
`Option`. -/
structure Card where
  id : Nat
  name : String
  type : String
  slug : String
  board : Nat
  created_by : Nat
  position : Int
  stack : Option Nat
  featured : Bool
  origin_url : String
  content : String
  is_shared : Bool
  thumbnail_sm_path : String
  thumbnail_md_path : String
  thumbnail_lg_path : String
  file_size : Option Int
  mime_type : Option String
  deriving Repr, DecidableEq

/-- Python truthiness of a CharField/TextField value. -/
def strTruthy (s : String) : Bool := !(s == "")

/-- Python truthiness of a nullable IntegerField: `None` and `0` are
falsy. -/
def intOptTruthy : Option Int → Bool
  | none => false
  | some n => !(n == 0)

/-- Python truthiness of a nullable CharField: `None` and `''` are
falsy. -/
def strOptTruthy : Option String → Bool
  | none => false
  | some s => !(s == "")

/-- `Card.clean` (cards/models.py:104-122): a non-stack card must have
truthy `content`; on a stack card the disallowed fields are checked in
source order with `if getattr(self, field)` and the first truthy one
raises. -/
def Card.clean (c : Card) : Except String Unit :=
  if c.type != "stack" then
    if !(strTruthy c.content) then
      Except.error "The `content` field is required."
    else Except.ok ()
  else
    if strTruthy c.origin_url then
      Except.error "The `origin_url` field should not be set on a card stack."
    else if strTruthy c.content then
      Except.error "The `content` field should not be set on a card stack."
    else if strTruthy c.thumbnail_sm_path then
      Except.error
        "The `thumbnail_sm_path` field should not be set on a card stack."
    else if strTruthy c.thumbnail_md_path then
      Except.error
        "The `thumbnail_md_path` field should not be set on a card stack."
    else if strTruthy c.thumbnail_lg_path then
      Except.error
        "The `thumbnail_lg_path` field should not be set on a card stack."
    else if intOptTruthy c.file_size then
      Except.error "The `file_size` field should not be set on a card stack."
    else if strOptTruthy c.mime_type then
      Except.error "The `mime_type` field should not be set on a card stack."
    else Except.ok ()

/-- One `queue_previews(url, sizes, metadata)` call
(cards/models.py:89-102); the metadata dict is `{'cardId': self.id}`. -/
structure PreviewRequest where
  url : String
  sizes : List String
  metadataCardId : Nat
  deriving Repr, DecidableEq

/-- `Card.post_save` (cards/models.py:89-102): the preview requests a save
issues — one when the card was just created and is a file, none
otherwise. -/
def Card.post_save (c : Card) (created : Bool) : List PreviewRequest :=
  if created && c.type == "file" then
    [{ url := c.content, sizes := ["200x200", "500x500", "800x800"],
       metadataCardId := c.id }]
  else []

/-- Card table plus the `Card.cards` many-to-many rows
(stack id, member id). -/
structure CardsDB where
  cards : List Card
  members : List (Nat × Nat)
  deriving Repr, DecidableEq

/-- The `m2m_changed` receiver `cards_changed` (cards/models.py:147-161):
`post_add` points every card in `pk_set` at the instance; `post_remove`
nulls `stack` for cards in `pk_set` whose `stack` is still the instance;
`post_clear` nulls `stack` for every card pointing at the instance. -/
def cards_changed (cards : List Card) (instanceId : Nat) (action : String)
    (pk_set : List Nat) : List Card :=
  if action == "post_add" then
    cards.map (fun c =>
      if pk_set.contains c.id then { c with stack := some instanceId }
      else c)
  else if action == "post_remove" then
    cards.map (fun c =>
      if pk_set.contains c.id && c.stack == some instanceId then
        { c with stack := none }
      else c)
  else if action == "post_clear" then
    cards.map (fun c =>
      if c.stack == some instanceId then { c with stack := none } else c)
  else cards

/-- `stack.cards.add(member)`: the m2m manager inserts only pks not already
related and fires `post_add` with that set of new pks. -/
def addToStack (db : CardsDB) (stackId : Nat) (memberId : Nat) : CardsDB :=
  let newIds : List Nat :=
    if db.members.contains (stackId, memberId) then [] else [memberId]
  { cards := cards_changed db.cards stackId "post_add" newIds,
    members :=
      if db.members.contains (stackId, memberId) then db.members
      else db.members ++ [(stackId, memberId)] }

/-- `stack.cards.remove(member)`: deletes the m2m row and fires
`post_remove` with the requested pks. -/
def removeFromStack (db : CardsDB) (stackId : Nat) (memberId : Nat) :
    CardsDB :=
  { cards := cards_changed db.cards stackId "post_remove" [memberId],
    members := db.members.filter (fun m => m != (stackId, memberId)) }

/-- `stack.cards.clear()`: deletes all of the stack's m2m rows and fires
`post_clear` (whose `pk_set` is None, unused by the receiver). -/
def clearStack (db : CardsDB) (stackId : Nat) : CardsDB :=
  { cards := cards_changed db.cards stackId "post_clear" [],
    members := db.members.filter (fun m => m.1 != stackId) }

/-- Card lookup by primary key. -/
def findCard (cards : List Card) (id : Nat) : Option Card :=
  cards.find? (fun c => c.id == id)

/-- The InvitedUser row `accept()` leaves behind on success: built from the
request's identity fields, the board's account and the account owner as
creator, with the new collaborator registered in its
`board_collaborators`. -/
def acceptInvitedUser (st : Store) (req : CollabRequest)
    (account : Account) : InvitedUser :=
  { id := st.nextId, first_name := req.first_name,
    last_name := req.last_name, email := req.email, user := req.user,
    account := account.id, created_by := account.ownerUser,
    board_collaborators := [st.nextId + 1] }

/-- The BoardCollaborator row `accept()` creates: linked to the new invited
user (never to `req.user`) with read permission. -/
def acceptCollaborator (st : Store) (req : CollabRequest) :
    BoardCollaborator :=
  { id := st.nextId + 1, board := req.board, user := none,
    invited_user := some st.nextId, permission := Permission.read }

/-- The BoardCollaborator row `create_owner_collaborator` creates for a
just-created board. -/
def ownerCollaborator (st : Store) (b : Board) (account : Account) :
    BoardCollaborator :=
  { id := st.nextId, board := b.id, user := some account.ownerUser,
    invited_user := none, permission := Permission.write }

/-- A sample collaborator row with read permission, for separating the two
permission levels. -/
def sampleReadRow : BoardCollaborator :=
  { id := 10, board := 1, user := some 1, invited_user := none,
    permission := Permission.read }

/-- A sample collaborator row with write permission. -/
def sampleWriteRow : BoardCollaborator :=
  { id := 11, board := 1, user := some 1, invited_user := none,
    permission := Permission.write }

/-- Sample account owner. -/
def ownerU : User :=
  { id := 1, email := "owner@example.com", first_name := "Olive",
    last_name := "Ng" }

/-- Sample registered user. -/
def bobU : User :=
  { id := 2, email := "bob@example.com", first_name := "Bob",
    last_name := "Lee" }

/-- Sample account owned by `ownerU`. -/
def acctA : Account := { id := 1, ownerUser := 1 }

/-- Sample board in `acctA`. -/
def boardB : Board :=
  { id := 1, name := "Board", slug := "board", account := 1,
    created_by := 1, is_shared := false, thumbnail_sm_path := "",
    thumbnail_md_path := "", thumbnail_lg_path := "" }

/-- Sample pending collaborator request by email from a non-user. -/
def reqR : CollabRequest :=
  { id := 50, first_name := "Rita", last_name := "Rae",
    email := "rita@example.com", user := none, board := 1, message := "hi" }

/-- Sample pending collaborator request already bound to `bobU`. -/
def reqBound : CollabRequest :=
  { id := 51, first_name := "Bob", last_name := "Lee",
    email := "bob@example.com", user := some 2, board := 1, message := "" }

/-- Sample store: one account with its owner, one board, one pending
request, no collaborators yet. -/
def baseStore : Store :=
  { users := [ownerU], accounts := [acctA], boards := [boardB],
    collaborators := [], invitedUsers := [], requests := [reqR],
    sentInvites := [], nextId := 100 }

/-- Sample store with a second registered user and a request bound to
them. -/
def boundStore : Store :=
  { baseStore with users := [ownerU, bobU], requests := [reqBound] }

/-- Sample store for exercising `BoardCollaboratorRequest.save`. -/
def saveStore : Store :=
  { baseStore with users := [ownerU, bobU], requests := [] }

/-- Request with neither user nor email, for the validation-failure case of
`save`. -/
def reqEmpty : CollabRequest :=
  { id := 60, first_name := "", last_name := "", email := "", user := none,
    board := 1, message := "" }

/-- Request with no bound user whose email matches `bobU`. -/
def reqByEmail : CollabRequest :=
  { id := 61, first_name := "X", last_name := "Y",
    email := "bob@example.com", user := none, board := 1, message := "" }

/-- A default card all sample cards are variations of. -/
def baseCard : Card :=
  { id := 0, name := "c", type := "note", slug := "c", board := 1,
    created_by := 1, position := 0, stack := none, featured := false,
    origin_url := "", content := "", is_shared := false,
    thumbnail_sm_path := "", thumbnail_md_path := "",
    thumbnail_lg_path := "", file_size := none, mime_type := none }

/-- Stack card whose `file_size` column is set to the (falsy) value 0. -/
def stackZeroSizeCard : Card :=
  { baseCard with id := 7, type := "stack", file_size := some 0 }

/-- Note card with empty content. -/
def emptyNoteCard : Card := { baseCard with id := 9 }

/-- File card. -/
def fileCard : Card :=
  { baseCard with id := 8, type := "file", content := "http://f.example" }

/-- Member card for the stack scenarios. -/
def cardX : Card := { baseCard with id := 3, content := "x" }

/-- First stack card. -/
def stackS : Card := { baseCard with id := 1, type := "stack" }

/-- Second stack card. -/
def stackT : Card := { baseCard with id := 2, type := "stack" }

/-- Card database with two empty stacks and one loose card. -/
def dbC7 : CardsDB := { cards := [stackS, stackT, cardX], members := [] }

/-- `cardX` added to `stackS`'s member set. -/
def dbC7a : CardsDB := addToStack dbC7 1 3

/-- then added to `stackT`'s member set as well. -/
def dbC7b : CardsDB := addToStack dbC7a 2 3

/-- then removed from `stackS`'s member set. -/
def dbC7c : CardsDB := removeFromStack dbC7b 1 3

/-! ## Theorems -/

/-- A queryset `.exists()` after `.filter(p)`: nonempty iff some row
satisfies the predicate. -/
theorem filter_nonempty_iff {α : Type} (p : α → Bool) (xs : List α) :
    (!(xs.filter p).isEmpty) = true ↔ ∃ a ∈ xs, p a = true := by
  simp [List.isEmpty_iff, List.eq_nil_iff_forall_not_mem, List.mem_filter]

/-- C2: `is_user_collaborator` with `permission` unset is true iff any
collaborator row exists for the (board, user) pair; with `'read'` iff a row
exists whose permission is read or write; with `'write'` iff a row exists
whose permission is write; hence write implies read, and not conversely. -/
theorem C2_is_user_collaborator_semantics :
    (∀ (rows : List BoardCollaborator) (b u : Nat),
      is_user_collaborator rows b u none = true ↔
        ∃ c ∈ rows, c.board = b ∧ c.user = some u)
    ∧ (∀ (rows : List BoardCollaborator) (b u : Nat),
      is_user_collaborator rows b u (some Permission.read) = true ↔
        ∃ c ∈ rows, c.board = b ∧ c.user = some u ∧
          (c.permission = Permission.read ∨
            c.permission = Permission.write))
    ∧ (∀ (rows : List BoardCollaborator) (b u : Nat),
      is_user_collaborator rows b u (some Permission.write) = true ↔
        ∃ c ∈ rows, c.board = b ∧ c.user = some u ∧
          c.permission = Permission.write)
    ∧ (∀ (rows : List BoardCollaborator) (b u : Nat),
      is_user_collaborator rows b u (some Permission.write) = true →
        is_user_collaborator rows b u (some Permission.read) = true)
    ∧ (is_user_collaborator [sampleReadRow] 1 1 (some Permission.read) = true
        ∧ is_user_collaborator [sampleReadRow] 1 1
            (some Permission.write) = false) := by
  have hnone : ∀ (rows : List BoardCollaborator) (b u : Nat),
      is_user_collaborator rows b u none = true ↔
        ∃ c ∈ rows, c.board = b ∧ c.user = some u := by
    intro rows b u
    rw [is_user_collaborator, filter_nonempty_iff]
    simp
  have hread : ∀ (rows : List BoardCollaborator) (b u : Nat),
      is_user_collaborator rows b u (some Permission.read) = true ↔
        ∃ c ∈ rows, c.board = b ∧ c.user = some u ∧
          (c.permission = Permission.read ∨
            c.permission = Permission.write) := by
    intro rows b u
    rw [is_user_collaborator]
    simp only [List.filter_filter, filter_nonempty_iff]
    simp [and_assoc, or_comm]
    exact ⟨fun ⟨c, hc, hp, hb, hu⟩ => ⟨c, hc, hb, hu, hp⟩,
      fun ⟨c, hc, hb, hu, hp⟩ => ⟨c, hc, hp, hb, hu⟩⟩
  have hwrite : ∀ (rows : List BoardCollaborator) (b u : Nat),
      is_user_collaborator rows b u (some Permission.write) = true ↔
        ∃ c ∈ rows, c.board = b ∧ c.user = some u ∧
          c.permission = Permission.write := by
    intro rows b u
    rw [is_user_collaborator]
    simp only [List.filter_filter, filter_nonempty_iff]
    simp [and_assoc]
    exact ⟨fun ⟨c, hc, hp, hb, hu⟩ => ⟨c, hc, hb, hu, hp⟩,
      fun ⟨c, hc, hb, hu, hp⟩ => ⟨c, hc, hp, hb, hu⟩⟩
  refine ⟨hnone, hread, hwrite, ?_, ?_⟩
  · intro rows b u hw
    rcases (hwrite rows b u).mp hw with ⟨c, hc, hb, hu, hp⟩
    exact (hread rows b u).mpr ⟨c, hc, hb, hu, Or.inr hp⟩
  · exact ⟨by decide, by decide⟩

/-- C2 witness: on a store holding one write-permission row, write-level
membership implies read-level membership. -/
theorem C2_witness :
    is_user_collaborator [sampleWriteRow] 1 1 (some Permission.read) =
      true :=
  C2_is_user_collaborator_semantics.2.2.2.1 [sampleWriteRow] 1 1 (by decide)

/-- C1: `notify_account_owner()` does send a fixed-template mail with
`fail_silently=False`, but its recipient list is `[self.email]` — the
requester's own address — not the board owner's address, which in this
store is `owner@example.com`. -/
theorem C1_notify_account_owner_recipient :
    notify_account_owner reqR =
      { subject := "Blimp Board Collaborator Request",
        body := "rita@example.com wants to join your board",
        from_email := "from@example.com",
        recipient_list := ["rita@example.com"],
        fail_silently := false }
    ∧ boardOwnerEmail baseStore reqR.board = some "owner@example.com"
    ∧ "owner@example.com" ∉ (notify_account_owner reqR).recipient_list := by
  refine ⟨?_, ?_, ?_⟩ <;> decide

/-- C5: on board creation (`created = True`) the post-save hook creates
exactly one write-permission collaborator row for the account owner, and a
plain update (`created = False`) creates none. -/
theorem C5_owner_bootstrap (st : Store) (b : Board) (account : Account)
    (hacct : findAccount st b.account = some account)
    (hfresh : ∀ c ∈ st.collaborators, c.board ≠ b.id) :
    (∃ st', create_owner_collaborator st b true = Except.ok st'
      ∧ st'.collaborators =
          st.collaborators ++ [ownerCollaborator st b account]
      ∧ (st'.collaborators.filter (fun c => c.board == b.id)).length = 1)
    ∧ (∀ st2 : Store,
        create_owner_collaborator st2 b false = Except.ok st2) := by
  constructor
  · have hval : boardCollaboratorValidateUnique st.collaborators
        (ownerCollaborator st b account) = true := by
      simp only [boardCollaboratorValidateUnique, ownerCollaborator,
        Bool.and_eq_true, List.all_eq_true]
      constructor
      · intro r hr
        have h := hfresh r hr
        simp [beq_iff_eq, h]
      · trivial
    have hval' : boardCollaboratorValidateUnique st.collaborators
        { id := st.nextId, board := b.id, user := some account.ownerUser,
          invited_user := none, permission := Permission.write } = true := by
      simpa only [ownerCollaborator] using hval
    have hcreate : create_owner_collaborator st b true =
        Except.ok { st with
          collaborators := st.collaborators ++ [ownerCollaborator st b account],
          nextId := st.nextId + 1 } := by
      simp only [create_owner_collaborator, hacct, createBoardCollaborator,
        boardCollaboratorClean, ownerCollaborator]
      simp [hval']
    refine ⟨_, hcreate, rfl, ?_⟩
    rw [List.filter_append]
    have hnil : st.collaborators.filter (fun c => c.board == b.id) = [] := by
      rw [List.filter_eq_nil_iff]
      intro c hc
      simp [beq_iff_eq, hfresh c hc]
    simp [hnil, ownerCollaborator]
  · intro st2
    rfl

/-- C5 witness: bootstrap on the sample board and store. -/
theorem C5_witness :
    (∃ st', create_owner_collaborator baseStore boardB true = Except.ok st'
      ∧ st'.collaborators =
          baseStore.collaborators ++
            [ownerCollaborator baseStore boardB acctA]
      ∧ (st'.collaborators.filter (fun c => c.board == boardB.id)).length
          = 1)
    ∧ (∀ st2 : Store,
        create_owner_collaborator st2 boardB false = Except.ok st2) :=
  C5_owner_bootstrap baseStore boardB acctA (by decide)
    (by intro c hc; simp [baseStore] at hc)


/-- Pointwise-identity maps leave a list unchanged. -/
theorem map_id_of_forall {α : Type} (l : List α) (f : α → α)
    (h : ∀ x ∈ l, f x = x) : l.map f = l := by
  induction l with
  | nil => rfl
  | cons a t ih =>
    simp only [List.map_cons]
    rw [h a (by simp), ih (fun x hx => h x (by simp [hx]))]

/-- Successful `createBoardCollaborator` appends exactly the new row and
bumps the id counter. -/
theorem createBoardCollaborator_ok_shape (st : Store) (b : Nat)
    (u i : Option Nat) (p : Permission) (st' : Store)
    (bc : BoardCollaborator)
    (h : createBoardCollaborator st b u i p = Except.ok (st', bc)) :
    st' = { st with collaborators := st.collaborators ++ [bc],
                    nextId := st.nextId + 1 }
    ∧ bc = { id := st.nextId, board := b, user := u, invited_user := i,
             permission := p } := by
  simp only [createBoardCollaborator] at h
  split at h
  · exact Except.noConfusion h
  · split at h
    · simp only [Except.ok.injEq, Prod.mk.injEq] at h
      refine ⟨?_, h.2.symm⟩
      rw [← h.1, ← h.2]
    · exact Except.noConfusion h

/-- Computation of `accept()` on the happy path: the exact store it leaves
behind. -/
theorem accept_spec (st : Store) (req : CollabRequest) (board : Board)
    (account : Account) (hboard : findBoard st req.board = some board)
    (hacct : findAccount st board.account = some account)
    (hfreshIU : ∀ iu ∈ st.invitedUsers, iu.id ≠ st.nextId)
    (hfreshBC : ∀ c ∈ st.collaborators,
      ¬(c.board = req.board ∧ c.invited_user = some st.nextId)) :
    accept st req = ({ st with
      invitedUsers := st.invitedUsers ++ [acceptInvitedUser st req account],
      collaborators := st.collaborators ++ [acceptCollaborator st req],
      sentInvites := st.sentInvites ++ [st.nextId],
      requests := st.requests.filter (fun r => r.id != req.id),
      nextId := st.nextId + 2 }, true) := by
  have hval : boardCollaboratorValidateUnique st.collaborators
      { id := st.nextId + 1, board := req.board, user := none,
        invited_user := some st.nextId, permission := Permission.read }
      = true := by
    simp only [boardCollaboratorValidateUnique, Bool.and_eq_true,
      List.all_eq_true]
    refine ⟨trivial, ?_⟩
    intro r hr
    have h := hfreshBC r hr
    simp only [beq_iff_eq, Bool.not_eq_true', Bool.and_eq_false_iff]
    by_cases hb : r.board = req.board
    · right
      rw [beq_eq_false_iff_ne]
      exact fun hiu => h ⟨hb, hiu⟩
    · left
      rw [beq_eq_false_iff_ne]
      exact hb
  have hmap : st.invitedUsers.map (fun iu =>
      if iu.id = st.nextId then
        { iu with
          board_collaborators := iu.board_collaborators ++ [st.nextId + 1] }
      else iu) = st.invitedUsers := by
    apply map_id_of_forall
    intro x hx
    simp [hfreshIU x hx]
  simp only [accept, acceptRun, hboard, hacct, createBoardCollaborator,
    boardCollaboratorClean, registerBoardCollaborator]
  simp [hval, List.map_append, hmap, acceptInvitedUser, acceptCollaborator]

/-- Computation of `accept()` when `send_invite()` raises: the first three
writes are already committed, nothing is rolled back, and the request is
not deleted. -/
theorem accept_sendInvite_fail_spec (st : Store) (req : CollabRequest)
    (board : Board) (account : Account)
    (hboard : findBoard st req.board = some board)
    (hacct : findAccount st board.account = some account)
    (hfreshIU : ∀ iu ∈ st.invitedUsers, iu.id ≠ st.nextId)
    (hfreshBC : ∀ c ∈ st.collaborators,
      ¬(c.board = req.board ∧ c.invited_user = some st.nextId)) :
    acceptRun st req (some AcceptStep.sendInvite) = ({ st with
      invitedUsers := st.invitedUsers ++ [acceptInvitedUser st req account],
      collaborators := st.collaborators ++ [acceptCollaborator st req],
      nextId := st.nextId + 2 }, false) := by
  have hval : boardCollaboratorValidateUnique st.collaborators
      { id := st.nextId + 1, board := req.board, user := none,
        invited_user := some st.nextId, permission := Permission.read }
      = true := by
    simp only [boardCollaboratorValidateUnique, Bool.and_eq_true,
      List.all_eq_true]
    refine ⟨trivial, ?_⟩
    intro r hr
    have h := hfreshBC r hr
    simp only [beq_iff_eq, Bool.not_eq_true', Bool.and_eq_false_iff]
    by_cases hb : r.board = req.board
    · right
      rw [beq_eq_false_iff_ne]
      exact fun hiu => h ⟨hb, hiu⟩
    · left
      rw [beq_eq_false_iff_ne]
      exact hb
  have hmap : st.invitedUsers.map (fun iu =>
      if iu.id = st.nextId then
        { iu with
          board_collaborators := iu.board_collaborators ++ [st.nextId + 1] }
      else iu) = st.invitedUsers := by
    apply map_id_of_forall
    intro x hx
    simp [hfreshIU x hx]
  simp only [acceptRun, hboard, hacct, createBoardCollaborator,
    boardCollaboratorClean, registerBoardCollaborator]
  simp [hval, List.map_append, hmap, acceptInvitedUser, acceptCollaborator,
    show (AcceptStep.sendInvite == AcceptStep.createInvitedUser) = false
      from rfl,
    show (AcceptStep.sendInvite == AcceptStep.createCollaborator) = false
      from rfl,
    show (AcceptStep.sendInvite == AcceptStep.registerCollaborator) = false
      from rfl,
    show (AcceptStep.sendInvite == AcceptStep.sendInvite) = true from rfl]



/-- Any raising step leaves the request table untouched (deletion is the
last step) and reports non-completion. -/
theorem acceptRun_fail_requests_unchanged (st : Store)
    (req : CollabRequest) (s : AcceptStep) :
    (acceptRun st req (some s)).1.requests = st.requests
    ∧ (acceptRun st req (some s)).2 = false := by
  unfold acceptRun
  cases hb : findBoard st req.board with
  | none => exact ⟨rfl, rfl⟩
  | some board =>
    dsimp only
    cases ha : findAccount st board.account with
    | none => exact ⟨rfl, rfl⟩
    | some account =>
      dsimp only
      cases s with
      | createInvitedUser => simp
      | createCollaborator => simp
      | registerCollaborator =>
        simp only [createBoardCollaborator, boardCollaboratorClean]
        simp
        split
        · simp
        next st2 bc heq =>
          split at heq
          · simp only [Except.ok.injEq, Prod.mk.injEq] at heq
            obtain ⟨h1, h2⟩ := heq
            subst h1
            simp [registerBoardCollaborator]
          · exact Except.noConfusion heq
      | sendInvite =>
        simp only [createBoardCollaborator, boardCollaboratorClean,
          registerBoardCollaborator]
        simp
        split
        · simp
        next st2 bc heq =>
          split at heq
          · simp only [Except.ok.injEq, Prod.mk.injEq] at heq
            obtain ⟨h1, h2⟩ := heq
            subst h1
            simp [registerBoardCollaborator]
          · exact Except.noConfusion heq
      | deleteRequest =>
        simp only [createBoardCollaborator, boardCollaboratorClean,
          registerBoardCollaborator]
        simp
        split
        · simp
        next st2 bc heq =>
          split at heq
          · simp only [Except.ok.injEq, Prod.mk.injEq] at heq
            obtain ⟨h1, h2⟩ := heq
            subst h1
            simp [registerBoardCollaborator]
          · exact Except.noConfusion heq

/-- C3: on a pending request, `accept()` creates exactly one new
InvitedUser and one new read-permission BoardCollaborator linked to it,
registers that collaborator in the invited user's collaborator set,
triggers the invite delivery, and deletes the request; `reject()` deletes
the request and creates no InvitedUser and no BoardCollaborator. -/
theorem C3_accept_reject_effects (st : Store) (req : CollabRequest)
    (board : Board) (account : Account)
    (hboard : findBoard st req.board = some board)
    (hacct : findAccount st board.account = some account)
    (hfreshIU : ∀ iu ∈ st.invitedUsers, iu.id ≠ st.nextId)
    (hfreshBC : ∀ c ∈ st.collaborators,
      ¬(c.board = req.board ∧ c.invited_user = some st.nextId)) :
    (∃ iu bc,
      accept st req = ({ st with
        invitedUsers := st.invitedUsers ++ [iu],
        collaborators := st.collaborators ++ [bc],
        sentInvites := st.sentInvites ++ [iu.id],
        requests := st.requests.filter (fun r => r.id != req.id),
        nextId := st.nextId + 2 }, true)
      ∧ bc.permission = Permission.read
      ∧ bc.user = none
      ∧ bc.invited_user = some iu.id
      ∧ iu.board_collaborators = [bc.id]
      ∧ iu.first_name = req.first_name
      ∧ iu.last_name = req.last_name
      ∧ iu.email = req.email
      ∧ (∀ r ∈ (accept st req).1.requests, r.id ≠ req.id))
    ∧ (reject st req).invitedUsers = st.invitedUsers
    ∧ (reject st req).collaborators = st.collaborators
    ∧ (∀ r ∈ (reject st req).requests, r.id ≠ req.id) := by
  have hspec := accept_spec st req board account hboard hacct hfreshIU
    hfreshBC
  have hreq : ∀ r ∈ (accept st req).1.requests, r.id ≠ req.id := by
    rw [hspec]
    intro r hr
    have := (List.mem_filter.mp hr).2
    simpa using this
  refine ⟨⟨acceptInvitedUser st req account, acceptCollaborator st req,
    hspec, rfl, rfl, rfl, rfl, rfl, rfl, rfl, hreq⟩, rfl, rfl, ?_⟩
  intro r hr
  have := (List.mem_filter.mp hr).2
  simpa using this

/-- C3 witness: accepting the sample pending request. -/
theorem C3_witness :
    findBoard baseStore reqR.board = some boardB
    ∧ (∀ r ∈ (accept baseStore reqR).1.requests, r.id ≠ reqR.id)
    ∧ (reject baseStore reqR).collaborators = baseStore.collaborators := by
  have h := C3_accept_reject_effects baseStore reqR boardB acctA
    (by decide) (by decide)
    (by intro iu hiu; simp [baseStore] at hiu)
    (by intro c hc; simp [baseStore] at hc)
  obtain ⟨⟨iu, bc, _, _, _, _, _, _, _, _, hreq⟩, _, hcol, _⟩ := h
  exact ⟨by decide, hreq, hcol⟩

/-- C4 counterexample: on the sample store, when `send_invite()` raises,
the already-created InvitedUser and BoardCollaborator stay visible while
the request still exists — the claimed all-or-nothing atomicity does not
hold. -/
theorem C4_counterexample :
    (acceptRun baseStore reqR (some AcceptStep.sendInvite)).2 = false
    ∧ reqR ∈ (acceptRun baseStore reqR
        (some AcceptStep.sendInvite)).1.requests
    ∧ (acceptRun baseStore reqR
        (some AcceptStep.sendInvite)).1.invitedUsers.length
        = baseStore.invitedUsers.length + 1
    ∧ (acceptRun baseStore reqR
        (some AcceptStep.sendInvite)).1.collaborators.length
        = baseStore.collaborators.length + 1 := by decide

/-- C4 as amended: whichever step of `accept()` fails, the request is
never deleted (deletion is the final step), so it remains pending; but
there is no rollback — when `send_invite()` fails, the InvitedUser and
BoardCollaborator created by the earlier steps remain visible. -/
theorem C4_failure_semantics (st : Store) (req : CollabRequest)
    (board : Board) (account : Account)
    (hboard : findBoard st req.board = some board)
    (hacct : findAccount st board.account = some account)
    (hfreshIU : ∀ iu ∈ st.invitedUsers, iu.id ≠ st.nextId)
    (hfreshBC : ∀ c ∈ st.collaborators,
      ¬(c.board = req.board ∧ c.invited_user = some st.nextId)) :
    (∀ s : AcceptStep,
      (acceptRun st req (some s)).1.requests = st.requests
      ∧ (acceptRun st req (some s)).2 = false)
    ∧ (acceptRun st req (some AcceptStep.sendInvite)).1.invitedUsers
        = st.invitedUsers ++ [acceptInvitedUser st req account]
    ∧ (acceptRun st req (some AcceptStep.sendInvite)).1.collaborators
        = st.collaborators ++ [acceptCollaborator st req] := by
  have hfail := accept_sendInvite_fail_spec st req board account hboard
    hacct hfreshIU hfreshBC
  exact ⟨fun s => acceptRun_fail_requests_unchanged st req s,
    by rw [hfail], by rw [hfail]⟩

/-- C4 witness: failure semantics on the sample store. -/
theorem C4_witness :
    (acceptRun baseStore reqR
        (some AcceptStep.deleteRequest)).1.requests = baseStore.requests
    ∧ (acceptRun baseStore reqR (some AcceptStep.sendInvite)).1.collaborators
        = baseStore.collaborators
          ++ [acceptCollaborator baseStore reqR] := by
  have h := C4_failure_semantics baseStore reqR boardB acctA
    (by decide) (by decide)
    (by intro iu hiu; simp [baseStore] at hiu)
    (by intro c hc; simp [baseStore] at hc)
  exact ⟨(h.1 AcceptStep.deleteRequest).1, h.2.2⟩

/-- C10: `accept()` links the new BoardCollaborator only to the freshly
created InvitedUser, never to the request's bound user, so a user who was
not a collaborator before is still not one (under `is_user_collaborator`)
immediately after their request is accepted. -/
theorem C10_bound_user_not_collaborator (st : Store)
    (req : CollabRequest) (board : Board) (account : Account) (u : Nat)
    (hboard : findBoard st req.board = some board)
    (hacct : findAccount st board.account = some account)
    (hfreshIU : ∀ iu ∈ st.invitedUsers, iu.id ≠ st.nextId)
    (hfreshBC : ∀ c ∈ st.collaborators,
      ¬(c.board = req.board ∧ c.invited_user = some st.nextId))
    (hu : req.user = some u)
    (hbefore : is_user_collaborator st.collaborators req.board u none
      = false) :
    (accept st req).2 = true
    ∧ (accept st req).1.collaborators
        = st.collaborators ++ [acceptCollaborator st req]
    ∧ (acceptCollaborator st req).user = none
    ∧ (acceptCollaborator st req).invited_user = some st.nextId
    ∧ is_user_collaborator (accept st req).1.collaborators req.board u
        none = false := by
  have hspec := accept_spec st req board account hboard hacct hfreshIU
    hfreshBC
  rw [hspec]
  refine ⟨rfl, rfl, rfl, rfl, ?_⟩
  simp only [is_user_collaborator] at hbefore ⊢
  rw [List.filter_append]
  have hnew : List.filter
      (fun c => c.board == req.board && c.user == some u)
      [acceptCollaborator st req] = [] := by
    simp [acceptCollaborator]
  rw [hnew, List.append_nil]
  exact hbefore

/-- C10 witness: accepting the sample request bound to user 2 leaves user
2 a non-collaborator. -/
theorem C10_witness :
    reqBound.user = some 2
    ∧ is_user_collaborator (accept boundStore reqBound).1.collaborators
        reqBound.board 2 none = false := by
  have h := C10_bound_user_not_collaborator boundStore reqBound boardB
    acctA 2 (by decide) (by decide)
    (by intro iu hiu; simp [boundStore, baseStore] at hiu)
    (by intro c hc; simp [boundStore, baseStore] at hc)
    (by decide) (by decide)
  exact ⟨by decide, h.2.2.2.2⟩



/-- Truthiness of a nullable integer column, unfolded. -/
theorem intOptTruthy_iff (o : Option Int) :
    intOptTruthy o = true ↔ ∃ n, o = some n ∧ n ≠ 0 := by
  cases o <;> simp [intOptTruthy]

/-- Truthiness of a nullable string column, unfolded. -/
theorem strOptTruthy_iff (o : Option String) :
    strOptTruthy o = true ↔ ∃ t, o = some t ∧ t ≠ "" := by
  cases o <;> simp [strOptTruthy]

/-- C6 counterexample: a stack card whose `file_size` is set (to 0) passes
`clean`, because the source tests Python truthiness (`if getattr(self,
field)`) and `0` is falsy — the claimed "fails iff ... is set" biconditional
is violated. -/
theorem C6_counterexample :
    stackZeroSizeCard.type = "stack"
    ∧ stackZeroSizeCard.file_size ≠ none
    ∧ Card.clean stackZeroSizeCard = Except.ok () :=
  ⟨by decide, by decide, by rfl⟩

/-- C6 as amended: `clean` fails iff the card is a non-stack with empty
`content`, or a stack with a truthy disallowed field — a non-empty string
field, a non-null non-zero `file_size`, or a non-null non-empty
`mime_type`. -/
theorem C6_clean_semantics (c : Card) :
    (∃ msg, Card.clean c = Except.error msg) ↔
      ((c.type ≠ "stack" ∧ c.content = "")
        ∨ (c.type = "stack" ∧
            (c.origin_url ≠ "" ∨ c.content ≠ ""
              ∨ c.thumbnail_sm_path ≠ "" ∨ c.thumbnail_md_path ≠ ""
              ∨ c.thumbnail_lg_path ≠ ""
              ∨ (∃ n, c.file_size = some n ∧ n ≠ 0)
              ∨ (∃ t, c.mime_type = some t ∧ t ≠ "")))) := by
  unfold Card.clean
  split_ifs with h1 h2 h3 h4 h5 h6 h7 h8 h9 <;>
    simp_all [strTruthy, intOptTruthy_iff, strOptTruthy_iff]
  exact ⟨h8, h9⟩

/-- C6 witness: a note card with empty content fails `clean`. -/
theorem C6_witness : ∃ msg, Card.clean emptyNoteCard = Except.error msg :=
  (C6_clean_semantics emptyNoteCard).mpr (Or.inl ⟨by decide, rfl⟩)

/-- `findCard` through an id-preserving rewrite of all rows. -/
theorem findCard_map (cards : List Card) (f : Card → Card)
    (hid : ∀ c, (f c).id = c.id) (x : Nat) :
    findCard (cards.map f) x = (findCard cards x).map f := by
  unfold findCard
  rw [List.find?_map]
  have hfun : ((fun b : Card => b.id == x) ∘ f)
      = (fun c : Card => c.id == x) := by
    funext c
    simp [Function.comp, hid]
  rw [hfun]

/-- A found card carries the searched id. -/
theorem findCard_eq_some_id (cards : List Card) (x : Nat) (c : Card)
    (h : findCard cards x = some c) : c.id = x := by
  unfold findCard at h
  have := List.find?_some h
  simpa [beq_iff_eq] using this

/-- C7 counterexample: add card 3 to stack 1, then to stack 2, then remove
it from stack 1's member set.  The removal leaves `stack = 2` (the
receiver's `post_remove` only nulls the pointer when it still references
the instance), so "removing X sets X.stack = null" fails as stated. -/
theorem C7_counterexample :
    (findCard dbC7a.cards 3).map Card.stack = some (some 1)
    ∧ dbC7c.members.contains (1, 3) = false
    ∧ (findCard dbC7c.cards 3).map Card.stack = some (some 2)
    ∧ (findCard dbC7c.cards 3).map Card.stack ≠ some none := by decide

/-- C7 as amended: adding X to S's member set sets X.stack = S; removing X
nulls X.stack only when it still points at S and leaves it untouched
otherwise; clearing S's member set nulls the pointer of exactly the cards
whose pointer is S. -/
theorem C7_stack_sync :
    (∀ (db : CardsDB) (S X : Nat) (c : Card),
      ¬ (S, X) ∈ db.members → findCard db.cards X = some c →
        findCard (addToStack db S X).cards X
          = some { c with stack := some S })
    ∧ (∀ (db : CardsDB) (S X : Nat) (c : Card),
      findCard db.cards X = some c → c.stack = some S →
        findCard (removeFromStack db S X).cards X
          = some { c with stack := none })
    ∧ (∀ (db : CardsDB) (S X : Nat) (c : Card),
      findCard db.cards X = some c → c.stack ≠ some S →
        findCard (removeFromStack db S X).cards X = some c)
    ∧ (∀ (db : CardsDB) (S : Nat) (c : Card),
      c ∈ (clearStack db S).cards → c.stack ≠ some S)
    ∧ (∀ (db : CardsDB) (S : Nat) (c : Card),
      c ∈ db.cards → c.stack = some S →
        { c with stack := none } ∈ (clearStack db S).cards) := by
  refine ⟨?_, ?_, ?_, ?_, ?_⟩
  · intro db S X c hmem hfind
    have hid := findCard_eq_some_id db.cards X c hfind
    have hc : (addToStack db S X).cards
        = db.cards.map (fun d =>
            if d.id = X then { d with stack := some S } else d) := by
      simp [addToStack, cards_changed, hmem,
        show (("post_add" : String) == "post_add") = true from by decide]
    rw [hc, findCard_map _ _
      (fun d => by by_cases hd : d.id = X <;> simp [hd]), hfind]
    simp [hid]
  · intro db S X c hfind hstack
    have hid := findCard_eq_some_id db.cards X c hfind
    have hc : (removeFromStack db S X).cards
        = db.cards.map (fun d =>
            if d.id = X ∧ d.stack = some S then { d with stack := none }
            else d) := by
      simp [removeFromStack, cards_changed,
        show (("post_remove" : String) == "post_add") = false from by decide,
        show (("post_remove" : String) == "post_remove") = true
          from by decide]
    rw [hc, findCard_map _ _
      (fun d => by
        by_cases hd : d.id = X ∧ d.stack = some S <;> simp [hd]), hfind]
    simp [hid, hstack]
  · intro db S X c hfind hstack
    have hid := findCard_eq_some_id db.cards X c hfind
    have hc : (removeFromStack db S X).cards
        = db.cards.map (fun d =>
            if d.id = X ∧ d.stack = some S then { d with stack := none }
            else d) := by
      simp [removeFromStack, cards_changed,
        show (("post_remove" : String) == "post_add") = false from by decide,
        show (("post_remove" : String) == "post_remove") = true
          from by decide]
    rw [hc, findCard_map _ _
      (fun d => by
        by_cases hd : d.id = X ∧ d.stack = some S <;> simp [hd]), hfind]
    simp [hid, hstack]
  · intro db S c hcmem
    have hc : (clearStack db S).cards
        = db.cards.map (fun d =>
            if d.stack = some S then { d with stack := none } else d) := by
      simp [clearStack, cards_changed,
        show (("post_clear" : String) == "post_add") = false from by decide,
        show (("post_clear" : String) == "post_remove") = false
          from by decide,
        show (("post_clear" : String) == "post_clear") = true
          from by decide]
    rw [hc] at hcmem
    rcases List.mem_map.mp hcmem with ⟨c0, hc0, heq⟩
    subst heq
    by_cases hs : c0.stack = some S
    · rw [if_pos hs]
      simp
    · rw [if_neg hs]
      exact hs
  · intro db S c hcmem hstack
    have hc : (clearStack db S).cards
        = db.cards.map (fun d =>
            if d.stack = some S then { d with stack := none } else d) := by
      simp [clearStack, cards_changed,
        show (("post_clear" : String) == "post_add") = false from by decide,
        show (("post_clear" : String) == "post_remove") = false
          from by decide,
        show (("post_clear" : String) == "post_clear") = true
          from by decide]
    rw [hc]
    have hfc : { c with stack := none } =
        (fun d : Card =>
          if d.stack = some S then { d with stack := none } else d) c := by
      simp [hstack]
    rw [hfc]
    exact List.mem_map_of_mem _ hcmem

/-- C7 witness: adding the loose card 3 to empty stack 1 sets its back
reference. -/
theorem C7_witness :
    ¬ (1, 3) ∈ dbC7.members
    ∧ findCard (addToStack dbC7 1 3).cards 3
        = some { cardX with stack := some 1 } :=
  ⟨by decide, C7_stack_sync.1 dbC7 1 3 cardX (by decide) (by decide)⟩

/-- C9: newly creating a file card issues exactly one preview request at
the three fixed sizes carrying the card id; creating a note or stack card
issues none; a non-creating save never issues one. -/
theorem C9_preview_triggering (c : Card) :
    (c.type = "file" → Card.post_save c true =
      [{ url := c.content, sizes := ["200x200", "500x500", "800x800"],
         metadataCardId := c.id }])
    ∧ (c.type = "note" ∨ c.type = "stack" → Card.post_save c true = [])
    ∧ Card.post_save c false = [] := by
  refine ⟨?_, ?_, rfl⟩
  · intro h
    simp [Card.post_save, h]
  · intro h
    rcases h with h | h <;> simp [Card.post_save, h]

/-- C9 witness: creating the sample file card issues its preview request,
and a later update issues none. -/
theorem C9_witness :
    Card.post_save fileCard true =
      [{ url := "http://f.example",
         sizes := ["200x200", "500x500", "800x800"],
         metadataCardId := 8 }]
    ∧ Card.post_save fileCard false = [] :=
  ⟨(C9_preview_triggering fileCard).1 rfl,
    (C9_preview_triggering fileCard).2.2⟩

/-- C8: saving a request with neither user nor email raises the validation
error, and saving an unbound request whose email matches exactly one
existing user binds that user and overwrites the request's name and email
from the user's profile before writing. -/
theorem C8_request_save_semantics (st : Store) :
    (∀ r : CollabRequest, r.user = none → r.email = "" →
      (∀ u ∈ st.users, u.email ≠ "") →
      requestSave st r = Except.error (SaveError.validationError
        "Either user or email must be set."))
    ∧ (∀ (r : CollabRequest) (u : User), r.user = none →
      st.users.filter (fun x => x.email == r.email) = [u] →
      findUser st u.id = some u →
      collabRequestValidateUnique st.requests (boundRequest r u) = true →
      requestSave st r = Except.ok
        ({ st with
            requests := upsertRequest st.requests (boundRequest r u) },
         boundRequest r u)) := by
  constructor
  · intro r hu he hne
    have hfil : st.users.filter (fun x => x.email == ("" : String)) = []
        := by
      rw [List.filter_eq_nil_iff]
      intro u hu2
      simp [beq_iff_eq, hne u hu2]
    simp only [requestSave, hu, he, hfil, collabRequestClean]
    simp
  · intro r u hu hfil hfind hvalid
    simp only [requestSave, hu, hfil, hfind, collabRequestClean,
      boundRequest] at hvalid ⊢
    simp [hvalid]

/-- C8 witness: the two save behaviours on the sample store. -/
theorem C8_witness :
    requestSave saveStore reqEmpty = Except.error
      (SaveError.validationError "Either user or email must be set.")
    ∧ requestSave saveStore reqByEmail = Except.ok
      ({ saveStore with
          requests := upsertRequest saveStore.requests
            (boundRequest reqByEmail bobU) },
       boundRequest reqByEmail bobU) := by
  constructor
  · exact (C8_request_save_semantics saveStore).1 reqEmpty rfl rfl
      (by decide)
  · exact (C8_request_save_semantics saveStore).2 reqByEmail bobU rfl
      (by decide) (by decide) (by decide)


end BlimpBoards
